import Mathlib

/-
Shallow embedding of src/app/MobotixControl.py.

The module has two classes:
  * MobotixPT      — pan-tilt control: static command tables (presets,
    speed_codes), a transport method _send_command, and the sequencing
    methods move_to_preset / move / stop.
  * MobotixImager  — frame capture: get_camera_frames supervises an
    external process and polls its line-oriented stdout; capture wraps it
    with error re-raising and then converts the raw .rgb artifacts found
    in the working directory via convert_rgb_to_jpg.

External effects (subprocess responses, select timeouts, converter exit
status, directory contents) are modelled as explicit inputs; the
filesystem is a list of file paths; exceptions are Except errors.
-/

namespace Mobotix

/-- Decidable equality of Except results, used to evaluate outcomes on
concrete inputs. -/
instance {e a : Type} [DecidableEq e] [DecidableEq a] : DecidableEq (Except e a) :=
  fun x y =>
  match x, y with
  | Except.ok v, Except.ok w =>
    if h : v = w then isTrue (by rw [h]) else isFalse (fun he => by cases he; exact h rfl)
  | Except.error v, Except.error w =>
    if h : v = w then isTrue (by rw [h]) else isFalse (fun he => by cases he; exact h rfl)
  | Except.ok _, Except.error _ => isFalse (fun he => by cases he)
  | Except.error _, Except.ok _ => isFalse (fun he => by cases he)

/-- Python str.strip on a character list: drop whitespace at both ends. -/
def stripChars (l : List Char) : List Char :=
  ((l.dropWhile Char.isWhitespace).reverse.dropWhile Char.isWhitespace).reverse

/-- Python str.strip on a string. -/
def pyStrip (s : String) : String :=
  String.mk (stripChars s.data)

/-- MobotixPT.presets: preset id to wire command string (source lines 31-64). -/
def presets : List (Nat × String) :=
  [(1, "%FF%01%00%07%00%01%09"),
   (2, "%FF%01%00%07%00%02%0A"),
   (3, "%FF%01%00%07%00%03%0B"),
   (4, "%FF%01%00%07%00%04%0C"),
   (5, "%FF%01%00%07%00%05%0D"),
   (6, "%FF%01%00%07%00%06%0E"),
   (7, "%FF%01%00%07%00%07%0F"),
   (8, "%FF%01%00%07%00%08%10"),
   (9, "%FF%01%00%07%00%09%11"),
   (10, "%FF%01%00%07%00%10%18"),
   (11, "%FF%01%00%07%00%11%19"),
   (12, "%FF%01%00%07%00%12%1A"),
   (13, "%FF%01%00%07%00%13%1B"),
   (14, "%FF%01%00%07%00%14%1C"),
   (15, "%FF%01%00%07%00%15%1D"),
   (16, "%FF%01%00%07%00%16%1E"),
   (17, "%FF%01%00%07%00%17%1F"),
   (18, "%FF%01%00%07%00%18%20"),
   (19, "%FF%01%00%07%00%19%21"),
   (20, "%FF%01%00%07%00%20%28"),
   (21, "%FF%01%00%07%00%21%29"),
   (22, "%FF%01%00%07%00%22%2A"),
   (23, "%FF%01%00%07%00%23%2B"),
   (24, "%FF%01%00%07%00%24%2C"),
   (25, "%FF%01%00%07%00%25%2D"),
   (26, "%FF%01%00%07%00%26%2E"),
   (27, "%FF%01%00%07%00%27%2F"),
   (28, "%FF%01%00%07%00%28%30"),
   (29, "%FF%01%00%07%00%29%31"),
   (30, "%FF%01%00%07%00%30%38"),
   (31, "%FF%01%00%07%00%31%39"),
   (32, "%FF%01%00%07%00%32%3A")]

/-- MobotixPT.speed_codes: direction to speed-level to wire command (lines 67-96). -/
def speed_codes : List (String × List (Nat × String)) :=
  [("right",
    [(1, "%FF%01%00%02%01%00%04"),
     (2, "%FF%01%00%02%0F%00%12"),
     (3, "%FF%01%00%02%1F%00%22"),
     (4, "%FF%01%00%02%2F%00%32"),
     (5, "%FF%01%00%02%FF%00%02")]),
   ("left",
    [(1, "%FF%01%00%04%01%00%06"),
     (2, "%FF%01%00%04%0F%00%14"),
     (3, "%FF%01%00%04%1F%00%24"),
     (4, "%FF%01%00%04%2F%00%34"),
     (5, "%FF%01%00%04%FF%00%04")]),
   ("up",
    [(1, "%FF%01%00%08%00%01%0A"),
     (2, "%FF%01%00%08%00%0F%18"),
     (3, "%FF%01%00%08%00%1F%28"),
     (4, "%FF%01%00%08%00%2F%38"),
     (5, "%FF%01%00%08%00%FF%08")]),
   ("down",
    [(1, "%FF%01%00%10%00%01%12"),
     (2, "%FF%01%00%10%00%0F%20"),
     (3, "%FF%01%00%10%00%1F%30"),
     (4, "%FF%01%00%10%00%2F%40"),
     (5, "%FF%01%00%10%00%FF%10")])]

/-- Python dict.get on the preset table: self.presets.get(pt_id). -/
def presetsGet (pt_id : Nat) : Option String :=
  (presets.find? (fun p => p.1 == pt_id)).map (fun p => p.2)

/-- Python dict lookup self.speed_codes[direction]; none models a KeyError. -/
def dirFind (direction : String) : Option (List (Nat × String)) :=
  (speed_codes.find? (fun p => p.1 == direction)).map (fun p => p.2)

/-- Python dict.get(speed) on one direction's inner table. -/
def dictFind (tbl : List (Nat × String)) (speed : Nat) : Option String :=
  (tbl.find? (fun q => q.1 == speed)).map (fun q => q.2)

/-- Combined lookup self.speed_codes[direction].get(speed) when the direction
exists; none when either level misses. -/
def speedGet (direction : String) (speed : Nat) : Option String :=
  match dirFind direction with
  | some tbl => dictFind tbl speed
  | none => none

/-- MobotixPT._send_command (lines 98-117): the response body of the curl call
is the input; success requires body.strip() == OK and returns the raw body,
otherwise an exception carrying the body is raised (modelled as error). -/
def sendCommand (body : String) : Except String String :=
  if pyStrip body = "OK" then Except.ok body
  else Except.error ("INVALID_CREDENTIALS_OR_CONNECTION_ERROR:" ++ body)

/-- The fixed stop wire command from MobotixPT.stop (line 142). -/
def stopCode : String := "%FF%01%00%00%00%00%01"

/-- Outcome of MobotixPT.move, separating values Python returns from
exceptions that propagate out of the call. -/
inductive MoveRes
  | done
  | invalidSpeed
  | keyError
  | sendError (e : String)
deriving DecidableEq

/-- MobotixPT.move (lines 127-137): looks up speed_codes[direction].get(speed);
a missing direction raises KeyError, a missing speed returns the invalid-code
string; otherwise it sends the move command (response body1), sleeps, and
sends the stop command via stop() (response body2). The first component is
the trace of wire commands handed to the transport. -/
def move (body1 body2 : String) (direction : String) (speed : Nat) :
    List String × MoveRes :=
  match dirFind direction with
  | none => ([], MoveRes.keyError)
  | some tbl =>
    match dictFind tbl speed with
    | none => ([], MoveRes.invalidSpeed)
    | some code =>
      match sendCommand body1 with
      | Except.error e => ([code], MoveRes.sendError e)
      | Except.ok _ =>
        match sendCommand body2 with
        | Except.error e2 => ([code, stopCode], MoveRes.sendError e2)
        | Except.ok _ => ([code, stopCode], MoveRes.done)

/-- MobotixPT.move_to_preset (lines 119-125): on a known preset id the wire
command is sent (first component is the trace of commands sent); otherwise
the string "Invalid preset ID." is returned and nothing is sent. -/
def move_to_preset (body : String) (pt_id : Nat) :
    List String × Except String String :=
  match presetsGet pt_id with
  | some code => ([code], sendCommand body)
  | none => ([], Except.ok "Invalid preset ID.")

/-- Upper-case hex digit for a value below 16. -/
def hexDigit (n : Nat) : Char :=
  match n with
  | 0 => '0' | 1 => '1' | 2 => '2' | 3 => '3' | 4 => '4'
  | 5 => '5' | 6 => '6' | 7 => '7' | 8 => '8' | 9 => '9'
  | 10 => 'A' | 11 => 'B' | 12 => 'C' | 13 => 'D' | 14 => 'E'
  | _ => 'F'

/-- Two upper-case hex digits of a byte value. -/
def byteHex (n : Nat) : String :=
  String.mk [hexDigit (n / 16 % 16), hexDigit (n % 16)]

/-- BCD rendering of a preset id: tens digit in the high nibble. -/
def bcdByte (n : Nat) : Nat := n / 10 * 16 + n % 10

/-- Modelled from the spec: the documented wire format
percentFF percent01 percent00 op param1 param2 checksum for preset recall
(op 07, param2 the BCD preset id, checksum the byte sum after the FF). -/
def specPresetCmd (pt_id : Nat) : String :=
  "%FF%01%00%07%00%" ++ byteHex (bcdByte pt_id) ++ "%" ++
    byteHex ((1 + 7 + bcdByte pt_id) % 256)

/-- Op byte of the documented wire format for each direction. -/
def dirOpByte (direction : String) : Nat :=
  match direction with
  | "right" => 2
  | "left" => 4
  | "up" => 8
  | "down" => 16
  | _ => 0

/-- Speed byte of the documented wire format for each speed level 1-5. -/
def speedByte (speed : Nat) : Nat :=
  match speed with
  | 1 => 1 | 2 => 15 | 3 => 31 | 4 => 47 | 5 => 255 | _ => 0

/-- Modelled from the spec: the documented wire format for a directional move;
horizontal moves carry the speed in param1, vertical moves in param2, and the
checksum is the byte sum after the FF, modulo 256. -/
def specSpeedCmd (direction : String) (speed : Nat) : String :=
  let op := dirOpByte direction
  let sc := speedByte speed
  let p1 := if direction = "up" || direction = "down" then 0 else sc
  let p2 := if direction = "up" || direction = "down" then sc else 0
  "%FF%01%00%" ++ byteHex op ++ "%" ++ byteHex p1 ++ "%" ++ byteHex p2 ++
    "%" ++ byteHex ((1 + op + p1 + p2) % 256)

/-- Numeric value of a list of decimal digit characters (Python int on the
regex group). -/
def digitsToNat (l : List Char) : Nat :=
  l.foldl (fun a c => a * 10 + (c.toNat - 48)) 0

/-- One attempt of the regex frame-number pattern at the head of the list:
the literal frame, one whitespace character, a hash, then at least one
digit; the captured group is the maximal digit run. -/
def matchFrameAt (l : List Char) : Option Nat :=
  match l with
  | 'f' :: 'r' :: 'a' :: 'm' :: 'e' :: w :: '#' :: rest =>
    if w.isWhitespace then
      let ds := rest.takeWhile Char.isDigit
      if ds = [] then none else some (digitsToNat ds)
    else none
  | _ => none

/-- re.search of the frame-number pattern: leftmost position where the
pattern matches. -/
def searchFrameAux : List Char → Option Nat
  | [] => none
  | c :: rest =>
    match matchFrameAt (c :: rest) with
    | some n => some n
    | none => searchFrameAux rest

/-- Frame number extracted from one stdout line, as in source line 233:
re.search on output.strip(). -/
def findFrameNum (s : String) : Option Nat :=
  searchFrameAux (pyStrip s).data

/-- One observable event of the capture loop (lines 224-232): either select
returns no readable stream within the 5-second timeout, or readline yields a
line (the empty string models an empty read). -/
inductive Ev
  | timeout
  | line (s : String)
deriving DecidableEq

/-- Observable actions the loop body performs; sendSignal would model
signalling the external process, which the source never does. -/
inductive Action
  | logTimeout
  | logNoData
  | logLine (s : String)
  | logMaxReached
  | sendSignal
deriving DecidableEq

/-- One iteration of the while-loop body of get_camera_frames (lines 224-237)
on one event: the actions performed and whether the loop returns. -/
def stepTr (frames : Nat) (e : Ev) : List Action × Bool :=
  match e with
  | Ev.timeout => ([Action.logTimeout], false)
  | Ev.line s =>
    if s = "" then ([Action.logNoData], false)
    else
      match findFrameNum s with
      | some n =>
        if frames < n then ([Action.logLine (pyStrip s), Action.logMaxReached], true)
        else ([Action.logLine (pyStrip s)], false)
      | none => ([Action.logLine (pyStrip s)], false)

/-- The while-loop of get_camera_frames over a finite prefix of the event
stream: the actions performed, and some rest exactly when the loop returned
with rest still unconsumed (none when the prefix ran out while looping). -/
def runLoop (frames : Nat) : List Ev → List Action × Option (List Ev)
  | [] => ([], none)
  | e :: rest =>
    let st := stepTr frames e
    if st.2 then (st.1, some rest)
    else
      let k := runLoop frames rest
      (st.1 ++ k.1, k.2)

/-- A file path as stem plus extension, the two pieces Path.with_suffix and
Path.suffix act on. -/
structure FPath where
  stem : String
  ext : String
deriving DecidableEq

/-- Path.with_suffix: same stem, new extension. -/
def withSuffix (p : FPath) (s : String) : FPath :=
  FPath.mk p.stem s

/-- One attempt of the resolution regex (digits, x, digits) at the head of
the list. -/
def matchResAt (l : List Char) : Option (List Char) :=
  let d1 := l.takeWhile Char.isDigit
  if d1 = [] then none
  else
    match l.drop d1.length with
    | 'x' :: rest =>
      let d2 := rest.takeWhile Char.isDigit
      if d2 = [] then none else some (d1 ++ 'x' :: d2)
    | _ => none

/-- re.search of the resolution pattern: leftmost match. -/
def searchResAux : List Char → Option (List Char)
  | [] => none
  | c :: rest =>
    match matchResAt (c :: rest) with
    | some r => some r
    | none => searchResAux rest

/-- MobotixImager.extract_resolution (lines 178-180): the WIDTHxHEIGHT token
of the file stem; none models the AttributeError when the pattern is absent. -/
def extract_resolution (p : FPath) : Option String :=
  (searchResAux p.stem.data).map String.mk

/-- Errors of the conversion step. -/
inductive ConvErr
  | malformedName
  | conversionFailed
deriving DecidableEq

/-- MobotixImager.convert_rgb_to_jpg (lines 182-203). The filesystem is the
list of files in the working directory; convOk is the converter's exit
status being zero. With check set, a non-zero exit raises before the unlink,
so the raw file stays; on success ffmpeg has written the jpg sibling and the
raw file is unlinked. -/
def convert_rgb_to_jpg (convOk : Bool) (fs : List FPath) (fname_rgb : FPath) :
    Except ConvErr FPath × List FPath :=
  let fname_jpg := withSuffix fname_rgb ".jpg"
  match extract_resolution fname_rgb with
  | none => (Except.error ConvErr.malformedName, fs)
  | some _ =>
    if convOk then
      (Except.ok fname_jpg, fname_jpg :: fs.filter (fun x => !(x == fname_rgb)))
    else (Except.error ConvErr.conversionFailed, fs)

/-- Errors escaping MobotixImager.capture. -/
inductive CapErr
  | convErr (e : ConvErr)
  | nameError
  | captureFatal (msg : String)
deriving DecidableEq

/-- The for-loop of capture (lines 249-252) over the globbed entries: the
loop variable tspath is threaded as last; a conversion error propagates out
of the loop at once. -/
def finalizeGo (convOk : Bool) (fs : List FPath) (entries : List FPath)
    (last : Option FPath) : Except ConvErr (Option FPath) × List FPath :=
  match entries with
  | [] => (Except.ok last, fs)
  | e :: rest =>
    if e.ext = ".rgb" then
      match convert_rgb_to_jpg convOk fs e with
      | (Except.ok jpg, fs2) => finalizeGo convOk fs2 rest (some jpg)
      | (Except.error err, fs2) => (Except.error err, fs2)
    else finalizeGo convOk fs rest (some e)

/-- The finalization phase of capture (lines 249-253): iterate the directory
entries, then return tspath; when the loop body never ran, the name tspath
is unbound and Python raises NameError. -/
def captureFinalize (convOk : Bool) (entries : List FPath) :
    Except CapErr FPath × List FPath :=
  match finalizeGo convOk entries entries none with
  | (Except.ok none, fs) => (Except.error CapErr.nameError, fs)
  | (Except.ok (some p), fs) => (Except.ok p, fs)
  | (Except.error e, fs) => (Except.error (CapErr.convErr e), fs)

/-- MobotixImager.capture (lines 239-253): phase is the joint outcome of
workdir.mkdir and get_camera_frames; an exception there is logged and
re-raised as Exception(e); otherwise the finalization loop runs on the
directory entries. -/
def capture (phase : Except String Unit) (convOk : Bool)
    (entries : List FPath) : Except CapErr FPath × List FPath :=
  match phase with
  | Except.error e => (Except.error (CapErr.captureFatal e), entries)
  | Except.ok _ => captureFinalize convOk entries

/-- Whether a transport result is a success. -/
def isOkE (r : Except String String) : Bool :=
  match r with
  | Except.ok _ => true
  | Except.error _ => false

/-- Whether a capture result is a success. -/
def isOkC (r : Except CapErr FPath) : Bool :=
  match r with
  | Except.ok _ => true
  | Except.error _ => false

/-- every key of the preset table is one of 1..32 -/
theorem presets_keys_bounded : ∀ x ∈ presets, 1 ≤ x.1 ∧ x.1 ≤ 32 := by decide

/-- preset lookup agrees with the documented wire format on 1..32 -/
theorem presetsGet_eq_spec : ∀ j, j < 33 → 1 ≤ j →
    presetsGet j = some (specPresetCmd j) := by decide

/-- C6: the transport send succeeds, returning the raw acknowledged body,
exactly when the response body stripped of surrounding whitespace is the
literal OK; any other body yields the invalid-response error carrying the
body, never success. -/
theorem sendCommand_ack_iff (body : String) :
    (isOkE (sendCommand body) = true ↔ pyStrip body = "OK")
  ∧ (pyStrip body = "OK" → sendCommand body = Except.ok body)
  ∧ (pyStrip body ≠ "OK" →
      sendCommand body =
        Except.error ("INVALID_CREDENTIALS_OR_CONNECTION_ERROR:" ++ body)) := by
  by_cases h : pyStrip body = "OK" <;> simp [sendCommand, h, isOkE]

/-- C6 witness: a padded OK is accepted and returned raw; the bodies ok,
empty and ERROR are all rejected with the invalid-response error. -/
theorem sendCommand_ack_iff_witness :
    sendCommand " OK " = Except.ok " OK " ∧
    sendCommand "ok" = Except.error "INVALID_CREDENTIALS_OR_CONNECTION_ERROR:ok" ∧
    sendCommand "" = Except.error "INVALID_CREDENTIALS_OR_CONNECTION_ERROR:" ∧
    sendCommand "ERROR" = Except.error "INVALID_CREDENTIALS_OR_CONNECTION_ERROR:ERROR" :=
  ⟨(sendCommand_ack_iff " OK ").2.1 (by decide),
   (sendCommand_ack_iff "ok").2.2 (by decide),
   (sendCommand_ack_iff "").2.2 (by decide),
   (sendCommand_ack_iff "ERROR").2.2 (by decide)⟩

/-- C8: for every preset id in 1..32 the preset lookup yields the documented
wire byte sequence (op 07, BCD id, byte-sum checksum) and move_to_preset
sends exactly that command; for id 0 or any id above 32 it returns the
invalid-preset string without issuing any transport command. -/
theorem move_to_preset_spec (id : Nat) (body : String) :
    (1 ≤ id → id ≤ 32 →
        presetsGet id = some (specPresetCmd id) ∧
        move_to_preset body id = ([specPresetCmd id], sendCommand body))
  ∧ ((id = 0 ∨ 32 < id) →
        move_to_preset body id = ([], Except.ok "Invalid preset ID.")) := by
  constructor
  · intro h1 h2
    have hb : presetsGet id = some (specPresetCmd id) :=
      presetsGet_eq_spec id (by omega) h1
    exact ⟨hb, by simp [move_to_preset, hb]⟩
  · intro h
    have hnone : presets.find? (fun p => p.1 == id) = none := by
      rw [List.find?_eq_none]
      intro x hx hbeq
      have hbd := presets_keys_bounded x hx
      have hx1 : x.1 = id := by simpa using hbeq
      rcases h with h0 | h33 <;> omega
    simp [move_to_preset, presetsGet, hnone]

/-- C8 witness: preset 7 resolves to its table entry and is sent; preset 0
and preset 33 are rejected without any send. -/
theorem move_to_preset_spec_witness :
    move_to_preset "OK" 7 = (["%FF%01%00%07%00%07%0F"], Except.ok "OK") ∧
    move_to_preset "OK" 0 = ([], Except.ok "Invalid preset ID.") ∧
    move_to_preset "OK" 33 = ([], Except.ok "Invalid preset ID.") :=
  ⟨(((move_to_preset_spec 7 "OK").1 (by decide) (by decide)).2).trans (by decide),
   (move_to_preset_spec 0 "OK").2 (Or.inl rfl),
   (move_to_preset_spec 33 "OK").2 (Or.inr (by decide))⟩

/-- C9: an exception raised while creating the working directory or reading
the capture process output is re-raised by capture as a fatal error carrying
the original message; capture never returns success in that case. -/
theorem capture_reraises_fatal (msg : String) (convOk : Bool) (entries : List FPath) :
    capture (Except.error msg) convOk entries =
      (Except.error (CapErr.captureFatal msg), entries)
  ∧ isOkC (capture (Except.error msg) convOk entries).1 = false :=
  ⟨rfl, rfl⟩

/-- C10: when the working directory holds no entries after the frame-capture
phase, the finalization phase of capture hits the unbound loop variable and
raises a NameError instead of returning a path. -/
theorem capture_empty_dir_nameError (convOk : Bool) :
    capture (Except.ok ()) convOk [] = (Except.error CapErr.nameError, []) := by
  cases convOk <;> rfl

/-- every key of each inner speed table is one of 1..5 -/
theorem speed_keys_bounded :
    ∀ p ∈ speed_codes, ∀ q ∈ p.2, 1 ≤ q.1 ∧ q.1 ≤ 5 := by decide

/-- every direction key of the speed table is one of the four directions -/
theorem speed_dirs :
    ∀ p ∈ speed_codes,
      p.1 = "right" ∨ p.1 = "left" ∨ p.1 = "up" ∨ p.1 = "down" := by decide

/-- C5 counterexample: with a transport response that fails the OK check, the
move-command send raises, move propagates the exception, and the stop command
is never issued — the trace holds only the move command. -/
theorem move_no_stop_after_raise :
    move "ERROR" "OK" "up" 2 =
      (["%FF%01%00%08%00%0F%18"],
        MoveRes.sendError "INVALID_CREDENTIALS_OR_CONNECTION_ERROR:ERROR") ∧
    (["%FF%01%00%08%00%0F%18"].contains stopCode) = false := by decide

/-- C5 amended: for a direction and speed in the table, when the move-command
send returns normally the stop command is always issued afterwards, even when
the stop send itself fails; but when the move-command send raises, the
exception propagates and no stop command is issued. -/
theorem move_stop_amended (b1 b2 direction : String) (speed : Nat)
    (code : String) (h : speedGet direction speed = some code) :
    (pyStrip b1 = "OK" → (move b1 b2 direction speed).1 = [code, stopCode])
  ∧ (pyStrip b1 ≠ "OK" →
      move b1 b2 direction speed =
        ([code], MoveRes.sendError
          ("INVALID_CREDENTIALS_OR_CONNECTION_ERROR:" ++ b1))) := by
  unfold speedGet at h
  cases hdir : dirFind direction with
  | none => rw [hdir] at h; cases h
  | some tbl =>
    rw [hdir] at h
    have h2 : dictFind tbl speed = some code := h
    by_cases hb : pyStrip b1 = "OK"
    · constructor
      · intro
        by_cases hb2 : pyStrip b2 = "OK" <;>
          simp [move, hdir, h2, sendCommand, hb, hb2]
      · intro hb2; exact absurd hb hb2
    · constructor
      · intro hb2; exact absurd hb2 hb
      · intro
        simp [move, hdir, h2, sendCommand, hb]

/-- C5 witness: a successful move send followed by a failing stop send still
puts the stop command on the wire after the move command. -/
theorem move_stop_amended_witness :
    (move "OK" "ERROR" "left" 1).1 = ["%FF%01%00%04%01%00%06", stopCode] :=
  (move_stop_amended "OK" "ERROR" "left" 1 "%FF%01%00%04%01%00%06"
    (by decide)).1 (by decide)

/-- C7 counterexample: an invalid direction does not produce the returned
invalid-code value; the dictionary lookup raises a KeyError that propagates
out of move (with no transport action). -/
theorem move_invalid_direction_raises :
    move "OK" "OK" "forward" 3 = ([], MoveRes.keyError) ∧
    (MoveRes.keyError == MoveRes.invalidSpeed) = false := by decide

/-- C7 amended: for the four configured directions and speeds 1..5 the speed
lookup yields the documented wire sequence; a configured direction with a
speed outside 1..5 makes move return the invalid-code value without any
transport action; an unconfigured direction raises a KeyError (no NotFound
value is returned), also without any transport action. -/
theorem speed_codes_amended (direction : String) (speed : Nat) (b1 b2 : String) :
    ((direction = "right" ∨ direction = "left" ∨ direction = "up" ∨ direction = "down") →
        (1 ≤ speed → speed ≤ 5 →
          speedGet direction speed = some (specSpeedCmd direction speed))
      ∧ ((speed = 0 ∨ 5 < speed) →
          move b1 b2 direction speed = ([], MoveRes.invalidSpeed)))
  ∧ (¬(direction = "right" ∨ direction = "left" ∨ direction = "up" ∨ direction = "down") →
        move b1 b2 direction speed = ([], MoveRes.keyError)) := by
  constructor
  · intro hd
    constructor
    · intro h1 h5
      have H : ∀ s, s < 6 → 1 ≤ s →
          (speedGet "right" s = some (specSpeedCmd "right" s)) ∧
          (speedGet "left" s = some (specSpeedCmd "left" s)) ∧
          (speedGet "up" s = some (specSpeedCmd "up" s)) ∧
          (speedGet "down" s = some (specSpeedCmd "down" s)) := by decide
      have hs := H speed (by omega) h1
      rcases hd with rfl | rfl | rfl | rfl
      · exact hs.1
      · exact hs.2.1
      · exact hs.2.2.1
      · exact hs.2.2.2
    · intro hout
      have htbl : ∀ tbl, dirFind direction = some tbl →
          dictFind tbl speed = none := by
        intro tbl hfind
        unfold dirFind at hfind
        cases hf : speed_codes.find? (fun p => p.1 == direction) with
        | none => rw [hf] at hfind; cases hfind
        | some pr =>
          rw [hf] at hfind
          have hmem := List.mem_of_find?_eq_some hf
          have hkeys := speed_keys_bounded pr hmem
          have htv : pr.2 = tbl := by simpa using hfind
          unfold dictFind
          have : tbl.find? (fun q => q.1 == speed) = none := by
            rw [List.find?_eq_none]
            intro q hq hbeq
            have hqb := hkeys q (htv ▸ hq)
            have hq1 : q.1 = speed := by simpa using hbeq
            rcases hout with h0 | h6 <;> omega
          rw [this]
          rfl
      cases hdir : dirFind direction with
      | none =>
        exfalso
        unfold dirFind at hdir
        rcases hd with rfl | rfl | rfl | rfl <;> simp [speed_codes] at hdir
      | some tbl =>
        have := htbl tbl hdir
        simp [move, hdir, this]
  · intro hd
    have hnone : speed_codes.find? (fun p => p.1 == direction) = none := by
      rw [List.find?_eq_none]
      intro x hx hbeq
      have hx1 : x.1 = direction := by simpa using hbeq
      have := speed_dirs x hx
      rw [hx1] at this
      exact hd this
    simp [move, dirFind, hnone]

/-- C7 witness: down at speed 5 resolves to its documented sequence; up at
speed 9 returns the invalid-code value with an empty trace. -/
theorem speed_codes_amended_witness :
    speedGet "down" 5 = some "%FF%01%00%10%00%FF%10" ∧
    move "OK" "OK" "up" 9 = ([], MoveRes.invalidSpeed) :=
  ⟨((((speed_codes_amended "down" 5 "OK" "OK").1
      (by decide)).1 (by decide) (by decide)).trans (by decide)),
   (((speed_codes_amended "up" 9 "OK" "OK").1
      (by decide)).2 (Or.inr (by decide)))⟩

/-- C3: for a raw frame artifact present in the working directory whose name
carries a resolution token, the raw file is deleted exactly when the external
converter succeeds: a non-zero converter status propagates as a conversion
error with the raw file still present, while success deletes the raw file
and a sibling with the same stem and the .jpg extension has been written. -/
theorem convert_delete_iff_success (convOk : Bool) (fs : List FPath) (p : FPath)
    (hext : p.ext = ".rgb") (hres : (extract_resolution p).isSome = true)
    (hmem : p ∈ fs) :
    (convOk = false →
        convert_rgb_to_jpg convOk fs p = (Except.error ConvErr.conversionFailed, fs) ∧
        p ∈ (convert_rgb_to_jpg convOk fs p).2)
  ∧ (convOk = true →
        (convert_rgb_to_jpg convOk fs p).1 = Except.ok (withSuffix p ".jpg") ∧
        p ∉ (convert_rgb_to_jpg convOk fs p).2 ∧
        withSuffix p ".jpg" ∈ (convert_rgb_to_jpg convOk fs p).2) := by
  cases hr : extract_resolution p with
  | none => rw [hr] at hres; cases hres
  | some dims =>
    have hne : p ≠ withSuffix p ".jpg" := by
      intro he
      have h1 := congrArg FPath.ext he
      simp only [withSuffix] at h1
      rw [hext] at h1
      exact absurd h1 (by decide)
    constructor
    · rintro rfl
      exact ⟨by simp [convert_rgb_to_jpg, hr], by simp [convert_rgb_to_jpg, hr, hmem]⟩
    · rintro rfl
      refine ⟨by simp [convert_rgb_to_jpg, hr], ?_, ?_⟩
      · simp [convert_rgb_to_jpg, hr]
        intro hcontra
        exact absurd hcontra hne
      · simp [convert_rgb_to_jpg, hr]

/-- C3 witness: a concrete raw artifact is kept with the error surfaced when
the converter fails, and replaced by its jpg sibling when it succeeds. -/
theorem convert_delete_iff_success_witness :
    (convert_rgb_to_jpg false [FPath.mk "1000_cam_320x240" ".rgb"]
        (FPath.mk "1000_cam_320x240" ".rgb")).1 =
      Except.error ConvErr.conversionFailed ∧
    (convert_rgb_to_jpg true [FPath.mk "1000_cam_320x240" ".rgb"]
        (FPath.mk "1000_cam_320x240" ".rgb")).1 =
      Except.ok (FPath.mk "1000_cam_320x240" ".jpg") := by
  constructor
  · have h := (convert_delete_iff_success false [FPath.mk "1000_cam_320x240" ".rgb"]
      (FPath.mk "1000_cam_320x240" ".rgb") (by decide) (by decide)
      (by decide)).1 rfl
    rw [h.1]
  · have h := (convert_delete_iff_success true [FPath.mk "1000_cam_320x240" ".rgb"]
      (FPath.mk "1000_cam_320x240" ".rgb") (by decide) (by decide)
      (by decide)).2 rfl
    exact h.1

/-- unfolding of the loop result on one event -/
theorem runLoop_res_cons (frames : Nat) (e : Ev) (rest : List Ev) :
    (runLoop frames (e :: rest)).2 =
      if (stepTr frames e).2 = true then some rest
      else (runLoop frames rest).2 := by
  by_cases h : (stepTr frames e).2 = true <;> simp [runLoop, h]

/-- unfolding of the loop action trace on one event -/
theorem runLoop_acts_cons (frames : Nat) (e : Ev) (rest : List Ev) :
    (runLoop frames (e :: rest)).1 =
      if (stepTr frames e).2 = true then (stepTr frames e).1
      else (stepTr frames e).1 ++ (runLoop frames rest).1 := by
  by_cases h : (stepTr frames e).2 = true <;> simp [runLoop, h]

/-- the loop body returns exactly on a line whose frame number exceeds the
target -/
theorem stepTr_true_iff (frames : Nat) (e : Ev) :
    (stepTr frames e).2 = true ↔
      ∃ s n, e = Ev.line s ∧ findFrameNum s = some n ∧ frames < n := by
  cases e with
  | timeout => simp [stepTr]
  | line s =>
    by_cases hs : s = ""
    · subst hs
      have hz : findFrameNum "" = none := rfl
      simp [stepTr, hz]
    · cases hf : findFrameNum s with
      | none => simp [stepTr, hs, hf]
      | some n =>
        by_cases hn : frames < n
        · simp [stepTr, hs, hf, hn]
        · simp [stepTr, hs, hf, hn]

/-- one loop iteration never signals the external process -/
theorem stepTr_no_signal (frames : Nat) (e : Ev) :
    Action.sendSignal ∉ (stepTr frames e).1 := by
  cases e with
  | timeout => simp [stepTr]
  | line s =>
    by_cases hs : s = ""
    · simp [stepTr, hs]
    · cases hf : findFrameNum s with
      | none => simp [stepTr, hs, hf]
      | some n =>
        by_cases hn : frames < n <;> simp [stepTr, hs, hf, hn]

/-- the loop never signals the external process -/
theorem runLoop_no_signal (frames : Nat) (evs : List Ev) :
    Action.sendSignal ∉ (runLoop frames evs).1 := by
  induction evs with
  | nil => simp [runLoop]
  | cons e rest ih =>
    rw [runLoop_acts_cons]
    by_cases h : (stepTr frames e).2 = true
    · rw [if_pos h]
      exact stepTr_no_signal frames e
    · rw [if_neg h]
      intro hc
      rcases List.mem_append.mp hc with hc2 | hc2
      · exact stepTr_no_signal frames e hc2
      · exact ih hc2

/-- the loop returns with a given unconsumed suffix exactly when the events
split as a non-returning prefix, one returning event, and that suffix -/
theorem runLoop_some_iff (frames : Nat) (evs rest : List Ev) :
    (runLoop frames evs).2 = some rest ↔
      ∃ pre e, evs = pre ++ e :: rest ∧ (stepTr frames e).2 = true ∧
        ∀ x ∈ pre, (stepTr frames x).2 = false := by
  induction evs generalizing rest with
  | nil =>
    simp [runLoop]
  | cons a evs ih =>
    rw [runLoop_res_cons]
    by_cases h : (stepTr frames a).2 = true
    · rw [if_pos h]
      constructor
      · intro heq
        injection heq with heq2
        subst heq2
        exact ⟨[], a, rfl, h, by simp⟩
      · rintro ⟨pre, e, hsplit, hterm, hpre⟩
        cases pre with
        | nil =>
          simp at hsplit
          rw [hsplit.2]
        | cons b pre2 =>
          have hb : a = b := by
            have := congrArg (fun l => List.head? l) hsplit
            simpa using this
          have := hpre b (by simp)
          rw [← hb] at this
          rw [h] at this
          cases this
    · rw [if_neg h]
      rw [ih]
      constructor
      · rintro ⟨pre, e, hsplit, hterm, hpre⟩
        refine ⟨a :: pre, e, by rw [hsplit]; rfl, hterm, ?_⟩
        intro x hx
        rcases List.mem_cons.mp hx with rfl | hx2
        · simpa using h
        · exact hpre x hx2
      · rintro ⟨pre, e, hsplit, hterm, hpre⟩
        cases pre with
        | nil =>
          simp at hsplit
          rw [hsplit.1] at h
          exact absurd hterm h
        | cons b pre2 =>
          have hb : a = b ∧ evs = pre2 ++ e :: rest := by
            constructor
            · have := congrArg (fun l => List.head? l) hsplit
              simpa using this
            · have := congrArg (fun l => List.tail l) hsplit
              simpa using this
          exact ⟨pre2, e, hb.2, hterm, fun x hx => hpre x (by simp [hx])⟩

/-- C1: the capture loop returns successfully, with a suffix of the output
stream left unconsumed, exactly when it reaches a line matching the
frame-number pattern with a value strictly greater than the target frame
count (all earlier events being non-returning); and the loop never sends the
external process a termination signal. -/
theorem getCameraFrames_target_reached (frames : Nat) (evs rest : List Ev) :
    ((runLoop frames evs).2 = some rest ↔
      ∃ pre s n, evs = pre ++ Ev.line s :: rest ∧ findFrameNum s = some n ∧
        frames < n ∧ ∀ x ∈ pre, (stepTr frames x).2 = false)
    ∧ Action.sendSignal ∉ (runLoop frames evs).1 := by
  constructor
  · rw [runLoop_some_iff]
    constructor
    · rintro ⟨pre, e, hsplit, hterm, hpre⟩
      rcases (stepTr_true_iff frames e).mp hterm with ⟨s, n, rfl, hfind, hlt⟩
      exact ⟨pre, s, n, hsplit, hfind, hlt, hpre⟩
    · rintro ⟨pre, s, n, hsplit, hfind, hlt, hpre⟩
      exact ⟨pre, Ev.line s, hsplit,
        (stepTr_true_iff frames (Ev.line s)).mpr ⟨s, n, rfl, hfind, hlt⟩, hpre⟩
  · exact runLoop_no_signal frames evs

/-- C1 witness: with target 2, a stream of frame 1 then frame 3 makes the
loop return right after frame 3, leaving the rest of the stream unread. -/
theorem getCameraFrames_target_reached_witness :
    (runLoop 2 [Ev.timeout, Ev.line "frame #1", Ev.line "frame #3",
        Ev.line "frame #9"]).2 = some [Ev.line "frame #9"] :=
  (getCameraFrames_target_reached 2
      [Ev.timeout, Ev.line "frame #1", Ev.line "frame #3", Ev.line "frame #9"]
      [Ev.line "frame #9"]).1.mpr
    ⟨[Ev.timeout, Ev.line "frame #1"], "frame #3", 3, rfl,
      by decide, by decide, by decide⟩

/-- C2: a poll timeout with no data, or an empty read, makes the capture loop
log and continue with the remaining events unchanged; the loop only ever
returns by observing a line whose frame number exceeds the target. -/
theorem getCameraFrames_stall_continues (frames : Nat) (evs : List Ev) :
    ((runLoop frames (Ev.timeout :: evs)).2 = (runLoop frames evs).2)
  ∧ ((runLoop frames (Ev.line "" :: evs)).2 = (runLoop frames evs).2)
  ∧ (∀ rest, (runLoop frames evs).2 = some rest →
      ∃ s n, Ev.line s ∈ evs ∧ findFrameNum s = some n ∧ frames < n) := by
  refine ⟨?_, ?_, ?_⟩
  · rw [runLoop_res_cons]
    simp [stepTr]
  · rw [runLoop_res_cons]
    simp [stepTr]
  · intro rest h
    rcases (runLoop_some_iff frames evs rest).mp h with ⟨pre, e, hsplit, hterm, hpre⟩
    rcases (stepTr_true_iff frames e).mp hterm with ⟨s, n, rfl, hfind, hlt⟩
    exact ⟨s, n, by rw [hsplit]; simp, hfind, hlt⟩

/-- C2 witness: a loop that times out before the only frame line behaves on
the rest of the stream exactly as if the stall had not happened. -/
theorem getCameraFrames_stall_continues_witness :
    (runLoop 1 [Ev.timeout, Ev.line "frame #5"]).2 =
      (runLoop 1 [Ev.line "frame #5"]).2 :=
  (getCameraFrames_stall_continues 1 [Ev.line "frame #5"]).1

/-- with a succeeding converter and parseable names, the finalize loop ends
with the loop variable holding the transform of the last entry iterated -/
theorem finalizeGo_all_ok (l : List FPath) : ∀ (fs : List FPath) (acc : Option FPath),
    (∀ e ∈ l, e.ext = ".rgb" → (extract_resolution e).isSome = true) →
    (finalizeGo true fs l acc).1 =
      Except.ok (l.foldl (fun _ e =>
        some (if e.ext = ".rgb" then withSuffix e ".jpg" else e)) acc) := by
  induction l with
  | nil => intro fs acc h; rfl
  | cons e rest ih =>
    intro fs acc h
    by_cases hext : e.ext = ".rgb"
    · have hres := h e (by simp) hext
      cases hr : extract_resolution e with
      | none => rw [hr] at hres; cases hres
      | some d =>
        have hc : convert_rgb_to_jpg true fs e =
            (Except.ok (withSuffix e ".jpg"),
             withSuffix e ".jpg" :: fs.filter (fun x => !(x == e))) := by
          simp [convert_rgb_to_jpg, hr]
        simp only [finalizeGo]
        rw [if_pos hext, hc]
        rw [List.foldl_cons]
        simp only [hext, if_true]
        exact ih _ (some (withSuffix e ".jpg"))
          (fun x hx hx2 => h x (List.mem_cons_of_mem e hx) hx2)
    · simp only [finalizeGo]
      rw [if_neg hext]
      rw [List.foldl_cons]
      simp only [hext, if_false]
      exact ih fs (some e)
        (fun x hx hx2 => h x (List.mem_cons_of_mem e hx) hx2)

/-- C4 counterexample: a directory holding a raw artifact followed by a
non-raw entry makes the finalization phase return that non-raw entry, which
is not the converted sibling of any raw artifact. -/
theorem capture_last_path_cex :
    (captureFinalize true
        [FPath.mk "1000_cam_320x240" ".rgb", FPath.mk "note" ".txt"]).1 =
      Except.ok (FPath.mk "note" ".txt") ∧
    ((FPath.mk "note" ".txt").ext == ".jpg") = false := by decide

/-- C4 amended: when every raw entry's name parses and the converter always
succeeds, the finalization phase returns the last directory entry iterated —
its converted sibling when that entry is raw, the entry itself otherwise —
so it is the last converted artifact only when the final entry is raw. -/
theorem capture_last_path_amended (pre : List FPath) (e : FPath)
    (h : ∀ x ∈ pre ++ [e], x.ext = ".rgb" → (extract_resolution x).isSome = true) :
    (captureFinalize true (pre ++ [e])).1 =
      Except.ok (if e.ext = ".rgb" then withSuffix e ".jpg" else e) := by
  have hgo := finalizeGo_all_ok (pre ++ [e]) (pre ++ [e]) none h
  rw [List.foldl_append] at hgo
  simp only [List.foldl_cons, List.foldl_nil] at hgo
  unfold captureFinalize
  cases hk : finalizeGo true (pre ++ [e]) (pre ++ [e]) none with
  | mk r fs2 =>
    rw [hk] at hgo
    have hr2 : r = Except.ok (some (if e.ext = ".rgb" then withSuffix e ".jpg" else e)) := hgo
    subst hr2
    rfl

/-- C4 amended witness: a directory whose single entry is a raw artifact
finalizes to that artifact's jpg sibling. -/
theorem capture_last_path_amended_witness :
    (captureFinalize true [FPath.mk "1001_cam_320x240" ".rgb"]).1 =
      Except.ok (FPath.mk "1001_cam_320x240" ".jpg") := by
  have h := capture_last_path_amended [] (FPath.mk "1001_cam_320x240" ".rgb")
    (by decide)
  simpa using h

end Mobotix
